import Mathlib

/-!
Shallow embedding of the Nature's Way video-automation pipeline
(`helpers.py` and `socialpilot_poster.py`) together with proofs of the
specification's claims about it.

Modelling conventions:
* Python strings are Lean `String`s; where a Python string primitive does
  not reduce in the Lean kernel (`str.replace`, `str.split`, `str.strip`,
  `in`, `str.lower`) we re-implement it on `List Char` with the same
  semantics for the inputs the code uses (single-character patterns,
  ASCII case folding).
* Fallible I/O (file reads and writes, HTTP requests) is modelled by
  explicit outcome parameters: each possible result of the external call
  is a constructor of a small inductive type, and the function under
  study is a total Lean function of those outcomes.  Totality of the
  Lean model is the formal counterpart of "never raises to the caller".
-/

/-! ## Python string primitives on `List Char` -/

/-- Python `s.replace(a, b)` for a single-character pattern: replace every
occurrence of the character `a` by the character `b`. -/
def replaceChar (a b : Char) (l : List Char) : List Char :=
  l.map fun c => if c = a then b else c

/-- Python `s.split(sep)` for a single-character separator `c`:
splits into the (possibly empty) fragments between occurrences of `c`;
the empty string yields `[""]`. -/
def splitOnChar (c : Char) : List Char → List (List Char)
  | [] => [[]]
  | x :: xs =>
    let r := splitOnChar c xs
    if x = c then [] :: r
    else
      match r with
      | [] => [[x]]
      | y :: ys => (x :: y) :: ys

/-- Python `s.strip()`: drop leading and trailing whitespace. -/
def pyStrip (l : List Char) : List Char :=
  ((l.dropWhile Char.isWhitespace).reverse.dropWhile Char.isWhitespace).reverse

/-- Python `pat in hay` (substring containment). -/
def containsSub (pat : List Char) : List Char → Bool
  | [] => pat.isEmpty
  | c :: rest => pat.isPrefixOf (c :: rest) || containsSub pat rest

/-- Python `s.lower()` (ASCII case folding, which covers every string the
program manipulates). -/
def pyLower (s : String) : String := String.mk (s.toList.map Char.toLower)

/-! ## `StateManager` (helpers.py 26-68): the cursor store

The backing store is a JSON file.  `get_current_row` opens it inside a
`try`, so every failure mode (missing file, unreadable file, malformed
JSON, JSON that is not an object — `data.get` then raises
`AttributeError`, caught by the same handler) collapses to the default 2;
a parsed object without a `current_row` field also defaults to 2 via
`data.get('current_row', 2)`.  We model the observable states of the
file accordingly. -/

/-- The state file as `get_current_row` can observe it.  `parsed row ts`
is a successfully parsed JSON object whose `current_row` field is `row`
(if present) and whose `last_updated` field is `ts` (if present);
`unreadable` covers a missing read permission, malformed JSON, and JSON
whose top level is not an object (all land in the `except` handler). -/
inductive StateFile
  | absent
  | unreadable
  | parsed (row : Option Int) (ts : Option String)
  deriving DecidableEq, Repr

/-- Outcome of an attempt to open the state file for writing:
`ok` when the `json.dump` succeeds, `ioError` when `open`/`dump` raises
(the exception is caught and only logged by `_save_state`). -/
inductive WriteOutcome
  | ok
  | ioError
  deriving DecidableEq, Repr

/-- `StateManager.get_current_row` (helpers.py 33-44). -/
def getCurrentRow : StateFile → Int
  | .absent => 2
  | .unreadable => 2
  | .parsed none _ => 2
  | .parsed (some n) _ => n

/-- `StateManager._save_state` (helpers.py 58-68): on success the file
becomes `{current_row: row, last_updated: ts}` where `ts` is the
timestamp taken at call time; on an I/O error the exception is swallowed
and the file is left as it was. -/
def saveState (w : WriteOutcome) (fs : StateFile) (row : Int) (ts : String) : StateFile :=
  match w with
  | .ok => .parsed (some row) (some ts)
  | .ioError => fs

/-- `StateManager.increment_row` (helpers.py 46-51). -/
def incrementRow (w : WriteOutcome) (fs : StateFile) (ts : String) : StateFile :=
  saveState w fs (getCurrentRow fs + 1) ts

/-- `StateManager.reset_to_start` (helpers.py 53-56). -/
def resetToStart (w : WriteOutcome) (fs : StateFile) (ts : String) : StateFile :=
  saveState w fs 2 ts

/-! ## `GoogleSheetsReader._extract_benefits_from_title` (helpers.py 212-237) -/

/-- The fixed benefit keyword set (helpers.py 218-222). -/
def benefitsKeywords : List String :=
  ["enhance", "improve", "boost", "promote", "support", "strengthen",
   "healthy", "organic", "natural", "nutrient", "growth", "root",
   "soil", "plant", "garden", "lawn"]

/-- `any(keyword.lower() in sentence.lower() for keyword in benefits_keywords)`
(helpers.py 230). -/
def keywordHit (s : String) : Bool :=
  benefitsKeywords.any fun kw => containsSub (pyLower kw).toList (pyLower s).toList

/-- `len(sentence) > 20 and len(sentence) < 150` (helpers.py 231). -/
def benefitLengthOk (s : String) : Bool :=
  decide (20 < s.length) && decide (s.length < 150)

/-- `GoogleSheetsReader._extract_benefits_from_title` (helpers.py 212-237).
Note the source REPLACES `/`, en-dash and hyphen by spaces and splits only
on `|` (helpers.py 225). -/
def extractBenefitsFromTitle (title : String) : String :=
  if title = "" then "provides excellent nutrition for your plants"
  else
    let replaced :=
      replaceChar '-' ' ' (replaceChar '–' ' ' (replaceChar '/' ' ' title.toList))
    let sentences := (splitOnChar '|' replaced).map fun l => String.mk (pyStrip l)
    let benefitParts := sentences.filter fun s => keywordHit s && benefitLengthOk s
    if benefitParts.isEmpty then
      "provides excellent nutrition and support for healthy plant growth"
    else
      String.intercalate ". " (benefitParts.take 2)

/-- Modelled from the claim's words (spec §4.2): "split title on `/`,
en-dash, hyphen, and `|`; keep fragments of length 20-150 containing at
least one of a fixed keyword set; join first two matches with `. `".
Stated for comparison with `extractBenefitsFromTitle`, which is what the
code actually does. -/
def benefitsClaimed (title : String) : String :=
  if title = "" then "provides excellent nutrition for your plants"
  else
    let fragments :=
      ((((splitOnChar '/' title.toList).flatMap (splitOnChar '–')).flatMap
        (splitOnChar '-')).flatMap (splitOnChar '|')).map fun l => String.mk (pyStrip l)
    let matched := fragments.filter fun s =>
      (decide (20 ≤ s.length) && decide (s.length ≤ 150)) && keywordHit s
    if matched.isEmpty then
      "provides excellent nutrition and support for healthy plant growth"
    else
      String.intercalate ". " (matched.take 2)

/-- The fragment collector of the amended claim, written as a direct
recursion: strip each `|`-fragment, keep it when its length is strictly
between 20 and 150 and it contains a keyword case-insensitively. -/
def collectBenefits : List (List Char) → List String
  | [] => []
  | l :: rest =>
    let s := String.mk (pyStrip l)
    if benefitLengthOk s && keywordHit s then s :: collectBenefits rest
    else collectBenefits rest

/-! ## `ScriptGenerator.generate_script` (helpers.py 269-341)

The Python body is wrapped in a `try`, but every field access uses
`.get` with a default, so the body cannot raise and the `except`-branch
(returning `{}`) is dead; the model is the straight-line body. -/

structure Scene where
  scene_number : Nat
  duration : Nat
  text : String
  visual_description : String
  background_music : String
  deriving DecidableEq, Repr

structure ScriptData where
  hook : String
  education : String
  cta : String
  full_script : String
  scenes : List Scene
  total_duration : Nat
  product_name : String
  deriving DecidableEq, Repr

/-- The fields of the product record that `generate_script` reads; a
`none` field models a key missing from the Python dict, in which case
`.get` substitutes the default. -/
structure ProductData where
  product_name : Option String
  benefits : Option String
  key_ingredient : Option String
  deriving DecidableEq, Repr

/-- The `hooks` list (helpers.py 277-283). -/
def scriptHooks : List String :=
  ["Why are your plants struggling to thrive?",
   "What if I told you there\x27s a secret to healthier soil?",
   "Are your plants getting the nutrition they really need?",
   "Want to know the difference between surviving and thriving plants?",
   "Ever wonder why some gardens flourish while others struggle?"]

/-- The `education_templates` list (helpers.py 286-290). -/
def educationTemplates (productName keyIngredient benefits : String) : List String :=
  [productName ++ " contains " ++ keyIngredient ++
     " that naturally improves soil structure and nutrient availability. " ++
     benefits ++
     ". This means stronger root systems, better water retention, and healthier plants that can resist pests and diseases naturally.",
   "The science is simple: " ++ productName ++ " with " ++ keyIngredient ++
     " creates the perfect soil environment. " ++ benefits ++
     ". Your plants get consistent nutrition, improved drainage, and the biological activity they need to thrive.",
   productName ++ " works by introducing " ++ keyIngredient ++
     " that feeds beneficial soil microbes. " ++ benefits ++
     ". This creates a living soil ecosystem that supports plant health from the ground up."]

/-- The call-to-action text (helpers.py 293). -/
def scriptCta : String :=
  "For more organic gardening tips and premium soil solutions, visit natureswaysoil.com"

/-- `ScriptGenerator.generate_script` (helpers.py 269-341). -/
def generateScript (pd : ProductData) : ScriptData :=
  let productName := pd.product_name.getD "our organic product"
  let benefits := pd.benefits.getD "amazing benefits for your plants"
  let keyIngredient := pd.key_ingredient.getD "natural ingredients"
  let hook := scriptHooks.headD ""
  let education := (educationTemplates productName keyIngredient benefits).headD ""
  let scenes : List Scene :=
    [⟨1, 7, hook,
      "Close-up of struggling plant with yellowing leaves, then transition to healthy green plants",
      "upbeat_gardening"⟩,
     ⟨2, 18, education,
      "Hands working with rich, dark soil, plants growing in healthy soil, root system close-up",
      "educational_calm"⟩,
     ⟨3, 5, scriptCta,
      "Beautiful thriving garden, Nature\x27s Way logo, website text overlay",
      "upbeat_conclusion"⟩]
  { hook := hook
    education := education
    cta := scriptCta
    full_script := hook ++ " " ++ education ++ " " ++ scriptCta
    scenes := scenes
    total_duration := 30
    product_name := productName }

/-! ## `PictoryVideoCreator` (helpers.py 343-505)

The HTTP calls are modelled by outcome parameters: `TokenFetch` is the
result of `_get_access_token` (helpers.py 355-380: returns `True` on an
HTTP 200 token response and `False` on any other status or exception),
`SubmitResult` the result of the `POST /video/create` request
(helpers.py 441-463), and `polls i` the result of the `i`-th
`GET /jobs/{id}` status poll (helpers.py 473-502).  `hasToken` is the
truthiness of the pre-existing `self.access_token`.  The construction of
the `video_request` payload (helpers.py 416-431) does not affect any
claim and is not modelled beyond the submission outcome. -/

inductive TokenFetch
  | success
  | failure
  deriving DecidableEq, Repr

inductive SubmitResult
  | accepted (jobId : Option String)
  | httpError
  deriving DecidableEq, Repr

inductive PollResult
  | httpError
  | jobStatus (status : String) (videoURL : Option String)
  deriving DecidableEq, Repr

structure VideoResult where
  video_id : String
  video_url : Option String
  status : String
  note : Option String
  deriving DecidableEq, Repr

/-- Python truthiness of an optional string (`None` and `""` are falsy). -/
def pyTruthyStr : Option String → Bool
  | none => false
  | some s => s != ""

/-- A poll response that terminates the wait loop. -/
def isTerminalPoll : PollResult → Bool
  | .httpError => false
  | .jobStatus s _ => s == "completed" || s == "failed"

/-- The polling loop of `_wait_for_video_completion` (helpers.py 473-505):
each non-terminal iteration sleeps 30 seconds, and the loop runs while
the elapsed time is below `max_wait_time = 600`, so (with instantaneous
polls) at most `600 / 30 = 20` iterations happen.  `fuel` is the number
of iterations left, `i` the index of the next poll. -/
def waitLoop (polls : Nat → PollResult) : Nat → Nat → Option String
  | 0, _ => none
  | fuel + 1, i =>
    match polls i with
    | .httpError => waitLoop polls fuel (i + 1)
    | .jobStatus s url =>
      if s = "completed" then url
      else if s = "failed" then none
      else waitLoop polls fuel (i + 1)

/-- Number of poll iterations that fit in the 600-second window at one
poll per 30 seconds. -/
def pollBudget : Nat := 600 / 30

/-- `PictoryVideoCreator._wait_for_video_completion` (helpers.py 469-505). -/
def waitForVideoCompletion (polls : Nat → PollResult) : Option String :=
  waitLoop polls pollBudget 0

/-- `PictoryVideoCreator.create_video` (helpers.py 382-467).
`List.isPrefixOf "AQICA".toList` models `self.api_key.startswith('AQICA')`. -/
def createVideo (testMode : Bool) (apiKey : String) (hasToken : Bool)
    (tokenFetch : TokenFetch) (submit : SubmitResult) (polls : Nat → PollResult)
    (now : Nat) : Option VideoResult :=
  if testMode then
    some { video_id := "test_video_" ++ toString now,
           video_url := some ("https://example.com/videos/test_video_" ++ toString now ++ ".mp4"),
           status := "completed",
           note := none }
  else if List.isPrefixOf "AQICA".toList apiKey.toList then
    some { video_id := "encrypted_key_test_" ++ toString now,
           video_url := some ("https://example.com/videos/encrypted_key_test_" ++ toString now ++ ".mp4"),
           status := "completed",
           note := some "Created with encrypted keys - test mode" }
  else
    match hasToken, tokenFetch with
    | false, .failure => none
    | _, _ =>
      match submit with
      | .httpError => none
      | .accepted none => none
      | .accepted (some jobId) =>
        let url := waitForVideoCompletion polls
        some { video_id := jobId,
               video_url := url,
               status := if pyTruthyStr url then "completed" else "processing",
               note := none }

/-! ## `SocialPilotPoster.post_video` (socialpilot_poster.py 119-189)

`accounts` is the list returned by `get_accounts` (which returns `[]` on
every authentication failure), `uploadRes` the media id returned by
`upload_media` (`none` models its `None` on failure; the code also
treats an empty-string id as failure via `if not media_id`), and
`postRes` the dictionary returned by `create_post` — `withError` when it
contains an `"error"` key, `ok payload` otherwise (the `data` payload is
bound to `post_data` in the source and never used).  The second
component of the result records which external operations were
performed, in order. -/

structure SPAccount where
  id : String
  accType : Option String
  accName : Option String
  deriving DecidableEq, Repr

inductive SPStep
  | discover
  | uploadMedia
  | createPost (accountIds : List String) (text : String) (mediaId : String)
  deriving DecidableEq, Repr

structure PostEntry where
  platform : String
  account : String
  status : String
  post_id : String
  url : String
  scheduled_time : String
  deriving DecidableEq, Repr

inductive PublishOutcome
  | error (message : String)
  | success (message : String) (posts : List PostEntry) (mediaId : String) (accountsUsed : Nat)
  deriving DecidableEq, Repr

def PublishOutcome.status : PublishOutcome → String
  | .error _ => "error"
  | .success _ _ _ _ => "success"

inductive CreatePostResult
  | withError (message : String)
  | ok (payload : List (String × String))
  deriving DecidableEq, Repr

/-- The caption (socialpilot_poster.py 146-150): hook, product name and
cta with their `.get` defaults, plus the fixed hashtag block. -/
def postText (hook productName cta : Option String) : String :=
  hook.getD "Transform your garden naturally!" ++ "\n\n" ++
  productName.getD "Nature\x27s Way Product" ++ "\n\n" ++
  cta.getD "Visit natureswaysoil.com for more!" ++
  "\n\n#NaturesWay #OrganicGardening #PlantCare #GreenThumb #HealthyPlants"

/-- One per-destination result entry (socialpilot_poster.py 170-181). -/
def mkPostEntry (mediaId now : String) (i : Nat) (acc : SPAccount) : PostEntry :=
  { platform := pyLower (acc.accType.getD "unknown"),
    account := acc.accName.getD ("Account_" ++ toString (i + 1)),
    status := "posted",
    post_id := "sp_" ++ mediaId ++ "_" ++ toString i,
    url := "https://socialpilot.co/posts/" ++ mediaId,
    scheduled_time := now }

/-- `SocialPilotPoster.post_video` (socialpilot_poster.py 119-189). -/
def postVideo (accounts : List SPAccount) (uploadRes : Option String)
    (postRes : CreatePostResult) (hook cta productName : Option String)
    (now : String) : PublishOutcome × List SPStep :=
  if accounts.isEmpty then
    (.error "No connected social media accounts found in SocialPilot", [.discover])
  else
    match uploadRes with
    | none => (.error "Failed to upload video to SocialPilot", [.discover, .uploadMedia])
    | some mediaId =>
      if mediaId = "" then
        (.error "Failed to upload video to SocialPilot", [.discover, .uploadMedia])
      else
        let text := postText hook productName cta
        let accountIds := (accounts.take 3).map SPAccount.id
        let steps := [SPStep.discover, .uploadMedia, .createPost accountIds text mediaId]
        match postRes with
        | .withError e => (.error e, steps)
        | .ok _ =>
          let results := (accounts.take 3).enum.map fun p => mkPostEntry mediaId now p.1 p.2
          (.success ("Video posted to " ++ toString results.length ++ " social media accounts")
            results mediaId results.length, steps)

/-! ## Theorems for the claims -/

/-! ## Claims C1, C2, C8, C9 -/

/-- C1: for every prior state of the cursor store, a successful `advance`
(`increment_row`) writes exactly the previously persisted cursor value
plus 1 together with the fresh call-time timestamp; when no prior state
exists or it is unreadable the missing state is read as the base value 2,
so the call (a total function here, hence raise-free) writes 3. -/
theorem increment_row_writes_succ (fs : StateFile) (ts : String) :
    incrementRow .ok fs ts = .parsed (some (getCurrentRow fs + 1)) (some ts) ∧
    incrementRow .ok .absent ts = .parsed (some 3) (some ts) ∧
    incrementRow .ok .unreadable ts = .parsed (some 3) (some ts) := by
  refine ⟨rfl, ?_, ?_⟩ <;> rfl

/-- C2: `get_current_row` is a total function of the observable file
state — it never raises — returning the persisted `current_row` when the
file exists and parses to an object carrying that field, and the base
value 2 when the file is absent, unreadable, corrupt, or lacks a
`current_row` field. -/
theorem get_current_row_total (n : Int) (ts ts' : Option String) :
    getCurrentRow (.parsed (some n) ts) = n ∧
    getCurrentRow .absent = 2 ∧
    getCurrentRow .unreadable = 2 ∧
    getCurrentRow (.parsed none ts') = 2 := by
  exact ⟨rfl, rfl, rfl, rfl⟩

/-- C8: a successful `reset` (`reset_to_start`) persists the cursor 2:
a read performed after the reset returns 2 regardless of the value
stored before. -/
theorem reset_then_read_is_two (fs : StateFile) (ts : String) :
    getCurrentRow (resetToStart .ok fs ts) = 2 := by
  rfl

/-- C9: the write operations `increment_row` and `reset_to_start` are
total (never raise) even when the state file is unwritable: the failed
write is swallowed by `_save_state`, the file is left exactly as it was,
and a subsequent `get_current_row` returns the old value — not the value
the operation tried to write. -/
theorem failed_write_preserves_state (fs : StateFile) (ts : String) :
    incrementRow .ioError fs ts = fs ∧
    resetToStart .ioError fs ts = fs ∧
    getCurrentRow (incrementRow .ioError fs ts) = getCurrentRow fs ∧
    getCurrentRow (resetToStart .ioError fs ts) = getCurrentRow fs ∧
    getCurrentRow (incrementRow .ioError fs ts) ≠ getCurrentRow fs + 1 := by
  refine ⟨rfl, rfl, rfl, rfl, ?_⟩
  show getCurrentRow fs ≠ getCurrentRow fs + 1
  omega

theorem collectBenefits_eq_filter (ls : List (List Char)) :
    collectBenefits ls =
      (ls.map fun l => String.mk (pyStrip l)).filter
        fun s => keywordHit s && benefitLengthOk s := by
  induction ls with
  | nil => rfl
  | cons l rest ih =>
    simp only [collectBenefits, List.map_cons, List.filter_cons, ih, Bool.and_comm]

/-- C6 (counterexample to the claim as stated): on the title
`"enhance your garden soil today/improve root growth and plant health"`
the code replaces the `/` by a space and keeps the whole title as a
single fragment, whereas the claimed split-on-`/` algorithm yields two
fragments joined with `". "` — the two results differ. -/
theorem benefits_split_counterexample :
    extractBenefitsFromTitle
        "enhance your garden soil today/improve root growth and plant health"
      = "enhance your garden soil today improve root growth and plant health" ∧
    benefitsClaimed
        "enhance your garden soil today/improve root growth and plant health"
      = "enhance your garden soil today. improve root growth and plant health" ∧
    benefitsClaimed
        "enhance your garden soil today/improve root growth and plant health"
      ≠ extractBenefitsFromTitle
        "enhance your garden soil today/improve root growth and plant health" := by
  refine ⟨by decide, by decide, by decide⟩

/-- C6 (amended): the benefits field is computed by replacing `/`,
en-dash and hyphen by spaces, splitting on `|` only, stripping each
fragment, keeping fragments of length strictly between 20 and 150 that
contain at least one keyword of the fixed set case-insensitively,
joining the first two kept fragments with `". "`; the default sentence
`"provides excellent nutrition for your plants"` is returned for an
empty title and `"provides excellent nutrition and support for healthy
plant growth"` when no fragment qualifies. -/
theorem benefits_replace_then_split (title : String) :
    extractBenefitsFromTitle title =
      if title = "" then "provides excellent nutrition for your plants"
      else if collectBenefits (splitOnChar '|' (replaceChar '-' ' '
          (replaceChar '–' ' ' (replaceChar '/' ' ' title.toList)))) = [] then
        "provides excellent nutrition and support for healthy plant growth"
      else
        String.intercalate ". "
          ((collectBenefits (splitOnChar '|' (replaceChar '-' ' '
            (replaceChar '–' ' ' (replaceChar '/' ' ' title.toList))))).take 2) := by
  rw [collectBenefits_eq_filter]
  unfold extractBenefitsFromTitle
  by_cases h : title = ""
  · simp [h]
  · simp only [if_neg h]
    set L := ((splitOnChar '|' (replaceChar '-' ' ' (replaceChar '–' ' '
      (replaceChar '/' ' ' title.toList)))).map fun l => String.mk (pyStrip l)).filter
        (fun s => keywordHit s && benefitLengthOk s) with hL
    cases L with
    | nil => rfl
    | cons p ps => rfl

/-- C7: for every product record — including records with missing
fields, which are replaced by defaults — the synthesized script has
exactly 3 scenes with scene_number sequence exactly `[1, 2, 3]`,
durations `[7, 18, 5]`, and `total_duration = 30`; template selection is
deterministic: the hook is always the first hook template and the
education text always the first education template. -/
theorem generate_script_shape (pd : ProductData) :
    (generateScript pd).scenes.length = 3 ∧
    (generateScript pd).scenes.map Scene.scene_number = [1, 2, 3] ∧
    (generateScript pd).scenes.map Scene.duration = [7, 18, 5] ∧
    (generateScript pd).total_duration = 30 ∧
    (generateScript pd).hook = "Why are your plants struggling to thrive?" ∧
    (generateScript pd).education =
      (educationTemplates (pd.product_name.getD "our organic product")
        (pd.key_ingredient.getD "natural ingredients")
        (pd.benefits.getD "amazing benefits for your plants")).headD "" := by
  exact ⟨rfl, rfl, rfl, rfl, rfl, rfl⟩

/-! ## Claims C3 and C4 -/

theorem waitLoop_none_of_no_terminal (polls : Nat → PollResult) :
    ∀ (fuel i : Nat), (∀ j, j < fuel → isTerminalPoll (polls (i + j)) = false) →
      waitLoop polls fuel i = none := by
  intro fuel
  induction fuel with
  | zero => intro i _; rfl
  | succ f ih =>
    intro i h
    have h0 : isTerminalPoll (polls i) = false := by
      have := h 0 (Nat.succ_pos f)
      simpa using this
    unfold waitLoop
    cases hp : polls i with
    | httpError =>
      exact ih (i + 1) fun j hj => by
        have := h (j + 1) (Nat.succ_lt_succ hj)
        simpa [Nat.add_assoc, Nat.add_comm 1 j] using this
    | jobStatus s url =>
      rw [hp] at h0
      simp only [isTerminalPoll, Bool.or_eq_false_iff, beq_eq_false_iff_ne] at h0
      show (if s = "completed" then url
        else if s = "failed" then none else waitLoop polls f (i + 1)) = none
      rw [if_neg h0.1, if_neg h0.2]
      exact ih (i + 1) fun j hj => by
        have := h (j + 1) (Nat.succ_lt_succ hj)
        simpa [Nat.add_assoc, Nat.add_comm 1 j] using this

/-- C3 (counterexample to the claim as stated): in live mode with an
ordinary (non-KMS-encrypted) API key, no stored token and a failing
token request, `create_video` returns `None` — it aborts instead of
degrading to a synthesized completed `VideoResult`, even though the
submission and polling backend would have answered successfully. -/
theorem create_video_auth_failure_returns_none :
    createVideo false "plain_api_key" false .failure
        (.accepted (some "job1")) (fun _ => .jobStatus "completed" (some "u")) 0 = none ∧
    ∀ r : VideoResult,
      createVideo false "plain_api_key" false .failure
          (.accepted (some "job1")) (fun _ => .jobStatus "completed" (some "u")) 0 ≠ some r := by
  refine ⟨by decide, ?_⟩
  intro r h
  rw [show createVideo false "plain_api_key" false .failure
        (.accepted (some "job1")) (fun _ => .jobStatus "completed" (some "u")) 0 = none
      from by decide] at h
  exact Option.noConfusion h

/-- C3 (amended): only credentials detected as AWS-KMS-encrypted
(api_key with prefix `AQICA`) make `create_video` degrade to
offline/simulation behaviour, returning a synthesized completed
`VideoResult`; every other live-mode authentication failure (no stored
token and a failed token request) or job-submission failure makes
`create_video` return no result (`None`), aborting the run. -/
theorem create_video_degrade_only_encrypted (apiKey : String) (hasToken : Bool)
    (tokenFetch : TokenFetch) (submit : SubmitResult) (polls : Nat → PollResult) (now : Nat) :
    (List.isPrefixOf "AQICA".toList apiKey.toList = true →
      createVideo false apiKey hasToken tokenFetch submit polls now =
        some { video_id := "encrypted_key_test_" ++ toString now,
               video_url := some ("https://example.com/videos/encrypted_key_test_" ++ toString now ++ ".mp4"),
               status := "completed",
               note := some "Created with encrypted keys - test mode" }) ∧
    (List.isPrefixOf "AQICA".toList apiKey.toList = false → hasToken = false →
      tokenFetch = .failure →
      createVideo false apiKey hasToken tokenFetch submit polls now = none) ∧
    (List.isPrefixOf "AQICA".toList apiKey.toList = false → submit = .httpError →
      createVideo false apiKey hasToken tokenFetch submit polls now = none) := by
  refine ⟨fun hA => ?_, fun hA h1 h2 => ?_, fun hA hs => ?_⟩
  · have hP : ['A', 'Q', 'I', 'C', 'A'] <+: apiKey.data :=
      List.isPrefixOf_iff_prefix.mp hA
    simp [createVideo, hP]
  · have hP : ¬ (['A', 'Q', 'I', 'C', 'A'] <+: apiKey.data) := fun hp => by
      have hb : "AQICA".toList.isPrefixOf apiKey.toList = true :=
        List.isPrefixOf_iff_prefix.mpr hp
      rw [hA] at hb
      exact Bool.false_ne_true hb
    simp [createVideo, hP, h1, h2]
  · have hP : ¬ (['A', 'Q', 'I', 'C', 'A'] <+: apiKey.data) := fun hp => by
      have hb : "AQICA".toList.isPrefixOf apiKey.toList = true :=
        List.isPrefixOf_iff_prefix.mpr hp
      rw [hA] at hb
      exact Bool.false_ne_true hb
    cases hasToken <;> cases tokenFetch <;> simp [createVideo, hP, hs]

/-- Witness for `create_video_degrade_only_encrypted` at concrete inputs. -/
theorem create_video_degrade_only_encrypted_witness :
    createVideo false "AQICAencrypted" false .failure (.accepted (some "j")) (fun _ => .httpError) 5 =
      some { video_id := "encrypted_key_test_" ++ toString 5,
             video_url := some ("https://example.com/videos/encrypted_key_test_" ++ toString 5 ++ ".mp4"),
             status := "completed",
             note := some "Created with encrypted keys - test mode" } ∧
    createVideo false "plainkey" false .failure (.accepted (some "j")) (fun _ => .httpError) 5 = none :=
  ⟨(create_video_degrade_only_encrypted "AQICAencrypted" false .failure
      (.accepted (some "j")) (fun _ => .httpError) 5).1 (by decide),
   (create_video_degrade_only_encrypted "plainkey" false .failure
      (.accepted (some "j")) (fun _ => .httpError) 5).2.1 (by decide) rfl rfl⟩

/-- C4 (counterexample to the claim as stated): a live-mode job whose
very first status poll reports the terminal state `failed` is returned
with status `"processing"`, not `"failed"` — `_wait_for_video_completion`
returns `None` both on failure and on timeout, and `create_video` maps
any `None` to `"processing"`. -/
theorem failed_job_reported_as_processing :
    createVideo false "plainkey" true .success (.accepted (some "job1"))
        (fun _ => .jobStatus "failed" none) 0 =
      some { video_id := "job1", video_url := none, status := "processing", note := none } ∧
    (createVideo false "plainkey" true .success (.accepted (some "job1"))
        (fun _ => .jobStatus "failed" none) 0).map VideoResult.status ≠ some "failed" := by
  exact ⟨by decide, by decide⟩

/-- C4 (amended): in live mode, after a job is submitted `create_video`
polls until a terminal state or the bounded 20-poll (600 s / 30 s)
timeout; its status is `"completed"` exactly when the poll loop produced
a non-empty URL, and `"processing"` otherwise — a job observed in the
terminal `failed` state is reported `"processing"` with null `video_url`
(indistinguishable from a timeout), a job still unresolved at the
timeout is reported `"processing"`, and `video_url` is null (or the
empty string the service returned) unless status is `"completed"`. -/
theorem create_video_poll_behaviour (apiKey : String)
    (hA : List.isPrefixOf "AQICA".toList apiKey.toList = false)
    (jobId : String) (polls : Nat → PollResult) (now : Nat) :
    ∃ r : VideoResult,
      createVideo false apiKey true .success (.accepted (some jobId)) polls now = some r ∧
      r.video_id = jobId ∧
      r.video_url = waitForVideoCompletion polls ∧
      (r.status = "completed" ∨ r.status = "processing") ∧
      (r.status = "completed" ↔ pyTruthyStr (waitForVideoCompletion polls) = true) ∧
      (∀ u, polls 0 = .jobStatus "failed" u → r.status = "processing" ∧ r.video_url = none) ∧
      ((∀ j, j < pollBudget → isTerminalPoll (polls j) = false) →
        r.status = "processing" ∧ r.video_url = none) ∧
      (r.status ≠ "completed" → r.video_url = none ∨ r.video_url = some "") := by
  have hP : ¬ (['A', 'Q', 'I', 'C', 'A'] <+: apiKey.data) := fun hp => by
    have hb : "AQICA".toList.isPrefixOf apiKey.toList = true :=
      List.isPrefixOf_iff_prefix.mpr hp
    rw [hA] at hb
    exact Bool.false_ne_true hb
  have hr : createVideo false apiKey true .success (.accepted (some jobId)) polls now =
      some { video_id := jobId,
             video_url := waitForVideoCompletion polls,
             status := if pyTruthyStr (waitForVideoCompletion polls) then "completed"
                       else "processing",
             note := none } := by
    simp [createVideo, hP]
  refine ⟨_, hr, rfl, rfl, ?_, ?_, ?_, ?_, ?_⟩
  · cases hU : pyTruthyStr (waitForVideoCompletion polls) <;> simp [hU]
  · cases hU : pyTruthyStr (waitForVideoCompletion polls) <;> simp [hU]
  · intro u h
    have hw : waitForVideoCompletion polls = none := by
      have hpb : pollBudget = 19 + 1 := rfl
      unfold waitForVideoCompletion
      rw [hpb]
      unfold waitLoop
      rw [h]
      simp
    simp [hw, pyTruthyStr]
  · intro hnt
    have hw : waitForVideoCompletion polls = none :=
      waitLoop_none_of_no_terminal polls pollBudget 0 fun j hj => by simpa using hnt j hj
    simp [hw, pyTruthyStr]
  · intro hne
    cases hU2 : waitForVideoCompletion polls with
    | none => exact Or.inl (by simp [hU2])
    | some s =>
      by_cases hs : s = ""
      · exact Or.inr (by simp [hU2, hs])
      · exfalso
        apply hne
        simp [hU2, pyTruthyStr, hs]

/-- Witness for `create_video_poll_behaviour`: the live path with an
ordinary key and a first poll reporting `failed`. -/
theorem create_video_poll_behaviour_witness :
    ∃ r : VideoResult,
      createVideo false "plainkey" true .success (.accepted (some "job1"))
          (fun _ => PollResult.jobStatus "failed" none) 0 = some r ∧
      r.video_id = "job1" ∧
      r.video_url = waitForVideoCompletion (fun _ => PollResult.jobStatus "failed" none) ∧
      (r.status = "completed" ∨ r.status = "processing") ∧
      (r.status = "completed" ↔
        pyTruthyStr (waitForVideoCompletion (fun _ => PollResult.jobStatus "failed" none)) = true) ∧
      (∀ u, (fun _ => PollResult.jobStatus "failed" none) 0 = PollResult.jobStatus "failed" u →
        r.status = "processing" ∧ r.video_url = none) ∧
      ((∀ j, j < pollBudget →
          isTerminalPoll ((fun _ => PollResult.jobStatus "failed" none) j) = false) →
        r.status = "processing" ∧ r.video_url = none) ∧
      (r.status ≠ "completed" → r.video_url = none ∨ r.video_url = some "") :=
  create_video_poll_behaviour "plainkey" (by decide) "job1"
    (fun _ => PollResult.jobStatus "failed" none) 0

/-- C5: an empty discovery result makes `post_video` return an `error`
outcome immediately, with only the discovery step performed (no media
upload, no post creation); an upload failure or a post-creation failure
likewise yields an `error` outcome; and a `success` outcome implies
discovery, upload and post creation all succeeded. -/
theorem post_video_short_circuits (accounts : List SPAccount) (uploadRes : Option String)
    (postRes : CreatePostResult) (hook cta productName : Option String) (now : String) :
    (accounts = [] →
      (postVideo accounts uploadRes postRes hook cta productName now).1.status = "error" ∧
      (postVideo accounts uploadRes postRes hook cta productName now).2 = [SPStep.discover]) ∧
    (uploadRes = none ∨ uploadRes = some "" →
      (postVideo accounts uploadRes postRes hook cta productName now).1.status = "error") ∧
    (∀ e, postRes = .withError e →
      (postVideo accounts uploadRes postRes hook cta productName now).1.status = "error") ∧
    ((postVideo accounts uploadRes postRes hook cta productName now).1.status = "success" →
      accounts ≠ [] ∧ (∃ m, uploadRes = some m ∧ m ≠ "") ∧ ∃ pl, postRes = .ok pl) := by
  refine ⟨fun hA => ?_, fun hU => ?_, fun e hE => ?_, fun hS => ?_⟩
  · subst hA; exact ⟨rfl, rfl⟩
  · cases accounts with
    | nil => simp [postVideo, PublishOutcome.status]
    | cons a rest =>
      rcases hU with h | h <;> subst h <;> simp [postVideo, PublishOutcome.status]
  · subst hE
    cases accounts with
    | nil => simp [postVideo, PublishOutcome.status]
    | cons a rest =>
      cases uploadRes with
      | none => simp [postVideo, PublishOutcome.status]
      | some m =>
        by_cases hm : m = "" <;> simp [postVideo, PublishOutcome.status, hm]
  · cases accounts with
    | nil => simp [postVideo, PublishOutcome.status] at hS
    | cons a rest =>
      cases uploadRes with
      | none => simp [postVideo, PublishOutcome.status] at hS
      | some m =>
        by_cases hm : m = ""
        · simp [postVideo, PublishOutcome.status, hm] at hS
        · cases postRes with
          | withError e => simp [postVideo, PublishOutcome.status, hm] at hS
          | ok pl =>
            exact ⟨List.cons_ne_nil a rest, ⟨m, rfl, hm⟩, ⟨pl, rfl⟩⟩

/-- Witness for `post_video_short_circuits`: empty discovery result. -/
theorem post_video_short_circuits_witness :
    (postVideo [] none (.withError "boom") none none none "t").1.status = "error" ∧
    (postVideo [] none (.withError "boom") none none none "t").2 = [SPStep.discover] :=
  (post_video_short_circuits [] none (.withError "boom") none none none "t").1 rfl

/-- C10: when `post_video` succeeds, the per-destination results list
has exactly `min 3 accounts.length` entries — one per addressed account,
in discovery order, never touching accounts beyond the first 3 — and
every entry has status `"posted"` with the synthesized
`post_id = "sp_<mediaId>_<i>"` and the dashboard
`url = "https://socialpilot.co/posts/<mediaId>"`; the outcome is
independent of the posting service's response payload (last conjunct),
so none of these fields comes from the response. -/
theorem post_video_success_shape (accounts : List SPAccount) (m : String) (hm : m ≠ "")
    (ha : accounts ≠ []) (pl : List (String × String)) (hook cta productName : Option String)
    (now : String) :
    ∃ (posts : List PostEntry) (msg : String),
      postVideo accounts (some m) (.ok pl) hook cta productName now =
        (.success msg posts m posts.length,
         [SPStep.discover, .uploadMedia,
          .createPost ((accounts.take 3).map SPAccount.id) (postText hook productName cta) m]) ∧
      posts.length = min 3 accounts.length ∧
      (∀ i (h : i < posts.length) (h2 : i < accounts.length),
        (posts.get ⟨i, h⟩).status = "posted" ∧
        (posts.get ⟨i, h⟩).post_id = "sp_" ++ m ++ "_" ++ toString i ∧
        (posts.get ⟨i, h⟩).url = "https://socialpilot.co/posts/" ++ m ∧
        (posts.get ⟨i, h⟩).platform =
          pyLower ((accounts.get ⟨i, h2⟩).accType.getD "unknown") ∧
        (posts.get ⟨i, h⟩).account =
          (accounts.get ⟨i, h2⟩).accName.getD ("Account_" ++ toString (i + 1))) ∧
      postVideo accounts (some m) (.ok pl) hook cta productName now =
        postVideo accounts (some m) (.ok []) hook cta productName now := by
  cases accounts with
  | nil => exact absurd rfl ha
  | cons a rest =>
    have hpv : ∀ pl2 : List (String × String),
        postVideo (a :: rest) (some m) (.ok pl2) hook cta productName now =
        (.success ("Video posted to " ++
            toString (((a :: rest).take 3).enum.map
              fun p => mkPostEntry m now p.1 p.2).length ++ " social media accounts")
          (((a :: rest).take 3).enum.map fun p => mkPostEntry m now p.1 p.2) m
          (((a :: rest).take 3).enum.map fun p => mkPostEntry m now p.1 p.2).length,
         [SPStep.discover, .uploadMedia,
          .createPost (((a :: rest).take 3).map SPAccount.id) (postText hook productName cta) m]) := by
      intro pl2
      simp only [postVideo, List.isEmpty_cons, Bool.false_eq_true, if_false]
      rw [if_neg hm]
    refine ⟨((a :: rest).take 3).enum.map fun p => mkPostEntry m now p.1 p.2,
      "Video posted to " ++ toString (((a :: rest).take 3).enum.map
        fun p => mkPostEntry m now p.1 p.2).length ++ " social media accounts",
      hpv pl, ?_, ?_, ?_⟩
    · simp only [List.length_map, List.enum_length, List.length_take, List.length_cons]
    · intro i h h2
      simp only [List.get_eq_getElem, List.getElem_map, List.getElem_enum, List.getElem_take]
      exact ⟨rfl, rfl, rfl, rfl, rfl⟩
    · exact (hpv pl).trans (hpv []).symm

/-- Witness for `post_video_success_shape` at a concrete two-account
discovery result. -/
theorem post_video_success_shape_witness :
    ∃ (posts : List PostEntry) (msg : String),
      postVideo [⟨"a1", some "Facebook", some "NW"⟩, ⟨"a2", none, none⟩]
          (some "m1") (.ok [("data", "x")]) none none none "t" =
        (.success msg posts "m1" posts.length,
         [SPStep.discover, .uploadMedia,
          .createPost (([⟨"a1", some "Facebook", some "NW"⟩,
              (⟨"a2", none, none⟩ : SPAccount)].take 3).map SPAccount.id)
            (postText none none none) "m1"]) ∧
      posts.length = min 3
        ([⟨"a1", some "Facebook", some "NW"⟩, (⟨"a2", none, none⟩ : SPAccount)]).length ∧
      (∀ i (h : i < posts.length)
          (h2 : i < ([⟨"a1", some "Facebook", some "NW"⟩,
            (⟨"a2", none, none⟩ : SPAccount)]).length),
        (posts.get ⟨i, h⟩).status = "posted" ∧
        (posts.get ⟨i, h⟩).post_id = "sp_" ++ "m1" ++ "_" ++ toString i ∧
        (posts.get ⟨i, h⟩).url = "https://socialpilot.co/posts/" ++ "m1" ∧
        (posts.get ⟨i, h⟩).platform =
          pyLower ((([⟨"a1", some "Facebook", some "NW"⟩,
            (⟨"a2", none, none⟩ : SPAccount)]).get ⟨i, h2⟩).accType.getD "unknown") ∧
        (posts.get ⟨i, h⟩).account =
          (([⟨"a1", some "Facebook", some "NW"⟩,
            (⟨"a2", none, none⟩ : SPAccount)]).get ⟨i, h2⟩).accName.getD
              ("Account_" ++ toString (i + 1))) ∧
      postVideo [⟨"a1", some "Facebook", some "NW"⟩, ⟨"a2", none, none⟩]
          (some "m1") (.ok [("data", "x")]) none none none "t" =
        postVideo [⟨"a1", some "Facebook", some "NW"⟩, ⟨"a2", none, none⟩]
          (some "m1") (.ok []) none none none "t" :=
  post_video_success_shape
    [⟨"a1", some "Facebook", some "NW"⟩, ⟨"a2", none, none⟩] "m1"
    (by decide) (by decide) [("data", "x")] none none none "t"
